import Mathlib

/-!
Verification of the VE-estimation core of the MY_TOOL OBD-II dashboard
(src/main.py) against its natural-language specification.

The numeric parts of the program are shallowly embedded over the exact
rationals: Python floats are modelled as `ℚ`, Python ints as `ℤ`/`ℕ`.
Sensor dictionaries (`self.sensor_values`, `self.history`) are modelled
as total functions from channel names; the numpy grids
(`self.ve_data_array`, `self.ve_counts`) as total functions on indices
(the in-bounds theorem for the indices actually used is proved
separately).  The GEAR_POSITION channel, the one channel that carries a
string, is kept in a separate field of the state so that the numeric
channels can be typed `ℚ`.
-/

namespace MyTool

/-- Source line 36: `NUM_CYLINDERS = 8`. -/
def NUM_CYLINDERS : ℤ := 8

/-- Source line 42: `RPM_BINS = list(range(400, 8001, 400))`,
i.e. 400, 800, ..., 8000 (20 entries), read as exact rationals. -/
def RPM_BINS : List ℚ := (List.range' 400 20 400).map (fun n : ℕ => (n : ℚ))

/-- Source line 43: `MAP_BINS = list(range(20, 106, 5))`,
i.e. 20, 25, ..., 105 (18 entries), read as exact rationals. -/
def MAP_BINS : List ℚ := (List.range' 20 18 5).map (fun n : ℕ => (n : ℚ))

/-- One CSV log field: every numeric column is a rational, the
GEAR_POSITION column is a string. -/
inductive LogEntry where
  | num (q : ℚ)
  | str (s : String)
deriving DecidableEq

/-- Outcome of one transport `obd.OBD(...)` open attempt, as seen by
`connect_obd` (source lines 531-581): either the session opens and
reports its supported command names, or the open/handshake fails. -/
inductive ConnectResult where
  | success (cmds : List String)
  | failure

/-- The mutable state of `MainWindow` that the core pipeline touches
(source lines 119-134): connection flags, the per-channel latest-value
dictionary, the per-channel rolling history, the cylinder count, the VE
mean/count grids and the CSV-logging flag. -/
structure AppState where
  connected : Bool
  connection_open : Bool
  last_port : Option String
  supported_commands : List String
  sensor_values : String → Option ℚ
  gear_value : Option String
  history : String → List ℚ
  num_cyl : ℤ
  ve_data_array : ℕ → ℕ → ℚ
  ve_counts : ℕ → ℕ → ℕ
  logging : Bool

/-- The initial state built by `MainWindow.__init__` (source lines
119-134): disconnected, empty dictionaries, 8 cylinders, zeroed grids. -/
def initState : AppState :=
  { connected := false
    connection_open := false
    last_port := none
    supported_commands := []
    sensor_values := fun _ => none
    gear_value := none
    history := fun _ => []
    num_cyl := NUM_CYLINDERS
    ve_data_array := fun _ _ => 0
    ve_counts := fun _ _ => 0
    logging := false }

/-- Source lines 643-645 (and identically 620-622): append the value to
a channel history, then `if len > 100: pop(0)` — `pop(0)` removes the
oldest (head) element. -/
def recordValue {α : Type} (h : List α) (v : α) : List α :=
  let h1 := h ++ [v]
  if 100 < h1.length then h1.drop 1 else h1

/-- Source line 618 analogue used throughout `update_dashboard`:
`self.sensor_values.get(name, 0)` — the stored value if present,
otherwise the default 0. -/
def sensor_get (s : AppState) (ch : String) : ℚ :=
  (s.sensor_values ch).getD 0

/-- Source lines 699-703, the per-cell online-mean step:
`new_avg = (old_avg * count + ve) / (count + 1)` together with
`counts += 1`.  The cell is its (running mean, sample count) pair. -/
def cellUpdate (cell : ℚ × ℕ) (v : ℚ) : ℚ × ℕ :=
  ((cell.1 * (cell.2 : ℚ) + v) / ((cell.2 : ℚ) + 1), cell.2 + 1)

/-- Source lines 690-693, the VE formula:
`temp_k = iat + 273.15`;
`intakes_per_sec = rpm * num_cyl / 120.0`;
`g_cyl = maf / intakes_per_sec if intakes_per_sec > 0 else 0`;
`ve = (g_cyl * temp_k) / map_ if map_ > 0 else 0`. -/
def computeVe (rpm maf map_ iat : ℚ) (cyl : ℤ) : ℚ :=
  let temp_k : ℚ := iat + 273.15
  let intakes_per_sec : ℚ := rpm * (cyl : ℚ) / 120
  let g_cyl : ℚ := if 0 < intakes_per_sec then maf / intakes_per_sec else 0
  if 0 < map_ then g_cyl * temp_k / map_ else 0

/-- One step of Python `min(range(n), key=d)`: keep the current best
index, replace it only on a strictly smaller key, so the first minimum
encountered wins. -/
def argminStep (d : ℕ → ℚ) (best i : ℕ) : ℕ :=
  if d i < d best then i else best

/-- Python `min(range(n), key=d)` for `n ≥ 1`: left fold of
`argminStep` over the indices `0, 1, ..., n-1` starting from 0. -/
def argminUpTo (d : ℕ → ℚ) (n : ℕ) : ℕ :=
  (List.range n).foldl (argminStep d) 0

/-- Source lines 697-698:
`min(range(len(axis)), key=lambda i: abs(axis[i] - value))`, the index
of the axis entry nearest to the value, ties going to the lower index. -/
def nearestIdx (axis : List ℚ) (v : ℚ) : ℕ :=
  argminUpTo (fun i => |axis.getD i 0 - v|) axis.length

/-- Source lines 640-647: store one fresh non-null poll response —
`self.sensor_values[name] = value` plus the capped history append. -/
def store_response (st : AppState) (p : String × ℚ) : AppState :=
  { st with
    sensor_values := fun ch => if ch = p.1 then some p.2 else st.sensor_values ch
    history := fun ch => if ch = p.1 then recordValue (st.history ch) p.2 else st.history ch }

/-- Source lines 635-649: while a connection object exists and some
commands are supported, each fresh non-null poll response is stored in
`sensor_values` and appended (with the 100-cap) to `history`.  The poll
results of the tick are passed in as a (channel, value) list. -/
def apply_responses (rs : List (String × ℚ)) (s : AppState) : AppState :=
  if s.connection_open ∧ s.supported_commands ≠ [] then
    rs.foldl store_response s
  else s

/-- Source lines 720-723: when logging is on, the CSV row
`[timestamp, rpm, map, maf, iat, ve, speed, coolant, throttle, timing,
o2_b1s1, o2_b1s2, o2_b2s1, o2_b2s2, trans_temp, oil_temp, oil_pressure,
gear_position]` (18 fixed columns) is written; otherwise nothing. -/
def logRowOf (ts : ℚ) (s1 : AppState) (ve : ℚ) : Option (List LogEntry) :=
  if s1.logging then
    some [LogEntry.num ts,
          LogEntry.num (sensor_get s1 ("RPM")),
          LogEntry.num (sensor_get s1 ("INTAKE_PRESSURE")),
          LogEntry.num (sensor_get s1 ("MAF")),
          LogEntry.num (sensor_get s1 ("INTAKE_TEMP")),
          LogEntry.num ve,
          LogEntry.num (sensor_get s1 ("SPEED")),
          LogEntry.num (sensor_get s1 ("COOLANT_TEMP")),
          LogEntry.num (sensor_get s1 ("THROTTLE_POS")),
          LogEntry.num (sensor_get s1 ("TIMING_ADVANCE")),
          LogEntry.num (sensor_get s1 ("O2_B1S1")),
          LogEntry.num (sensor_get s1 ("O2_B1S2")),
          LogEntry.num (sensor_get s1 ("O2_B2S1")),
          LogEntry.num (sensor_get s1 ("O2_B2S2")),
          LogEntry.num (sensor_get s1 ("TRANS_TEMP")),
          LogEntry.num (sensor_get s1 ("OIL_TEMP")),
          LogEntry.num (sensor_get s1 ("OIL_PRESSURE")),
          LogEntry.str (s1.gear_value.getD ("--"))]
  else none

/-- Source lines 629-725, `MainWindow.update_dashboard`, restricted to
its observable core: an early return when not connected; the polling
fold (`apply_responses`); the VE guard and computation; the
nearest-bin grid update; the optional CSV row.  Returns the new state,
the VE value emitted to the display/grid this tick (if any), and the
CSV row written this tick (if any).

The source guard (line 689) is
`rpm > 0 and maf > 0 and map_ > 0 and iat is not None`; the retrieved
`iat = self.sensor_values.get('INTAKE_TEMP', 0)` can never be `None`
(absent channels read as the default 0, and neither store path ever
stores a `None` value), so the `iat is not None` conjunct is the
constant-true test and the translated guard is the three positivity
tests. -/
def update_dashboard (ts : ℚ) (rs : List (String × ℚ)) (s : AppState) :
    AppState × Option ℚ × Option (List LogEntry) :=
  if s.connected then
    let s1 := apply_responses rs s
    if 0 < sensor_get s1 ("RPM") ∧ 0 < sensor_get s1 ("MAF") ∧
        0 < sensor_get s1 ("INTAKE_PRESSURE") then
      let ve := computeVe (sensor_get s1 ("RPM")) (sensor_get s1 ("MAF"))
        (sensor_get s1 ("INTAKE_PRESSURE")) (sensor_get s1 ("INTAKE_TEMP")) s1.num_cyl
      let mi := nearestIdx MAP_BINS (sensor_get s1 ("INTAKE_PRESSURE"))
      let ri := nearestIdx RPM_BINS (sensor_get s1 ("RPM"))
      let cell := cellUpdate (s1.ve_data_array mi ri, s1.ve_counts mi ri) ve
      ({ s1 with
          ve_data_array := fun i j => if i = mi ∧ j = ri then cell.1 else s1.ve_data_array i j
          ve_counts := fun i j => if i = mi ∧ j = ri then cell.2 else s1.ve_counts i j },
        some ve, logRowOf ts s1 ve)
    else
      (s1, none, logRowOf ts s1 0)
  else (s, none, none)

/-- Source lines 583-606, `MainWindow.disconnect_obd`: clears the
connected flag, closes/forgets the connection object, empties
`supported_commands`, `sensor_values` and `history`; the VE grids and
`last_port` are not touched. -/
def disconnect_obd (s : AppState) : AppState :=
  { s with
    connected := false
    connection_open := false
    supported_commands := []
    sensor_values := fun _ => none
    gear_value := none
    history := fun _ => [] }

/-- Source lines 531-581, `MainWindow.connect_obd`: first
`disconnect_obd`, then the transport open attempt; on success the
supported-command list is installed, `connected` is set and the port
remembered; on failure `disconnect_obd` runs again and the state stays
disconnected. -/
def connect_obd (port : String) (res : ConnectResult) (s : AppState) : AppState :=
  let s1 := disconnect_obd s
  match res with
  | ConnectResult.success cmds =>
      { s1 with
        connected := true
        connection_open := true
        supported_commands := cmds
        last_port := some port }
  | ConnectResult.failure => disconnect_obd s1

/-- Source lines 608-611, `MainWindow.reconnect_obd` (the 5-second
reconnect timer): if not connected and a prior port is remembered,
retry `connect_obd` on that port, else do nothing. -/
def reconnect_obd (res : ConnectResult) (s : AppState) : AppState :=
  match s.last_port with
  | some p => if s.connected then s else connect_obd p res s
  | none => s

/-- Source lines 755-759, `MainWindow.update_num_cyl`:
`self.num_cyl = int(self.cyl_input.text())`, with a `ValueError`
caught and the prior value kept.  The builtin `int()` is external to
this repository, so (like the transport in `ConnectResult`) its outcome
on the text-field contents is passed across the boundary: `some n` when
`int()` returns the integer n, `none` when it raises `ValueError`.  The
`some` branch installs n unconditionally — `int()` returns 0 for the
text "0" and -4 for "-4", so zero and negative counts are installed. -/
def update_num_cyl (parsed : Option ℤ) (s : AppState) : AppState :=
  match parsed with
  | some n => { s with num_cyl := n }
  | none => s

/-- Concrete state for the C3 analysis: connected, RPM/MAF/MAP present
and positive, INTAKE_TEMP absent, no open polling session. -/
def iatAbsentState : AppState :=
  { initState with
    connected := true
    sensor_values := fun ch =>
      if ch = ("RPM") then some 2000
      else if ch = ("MAF") then some 20
      else if ch = ("INTAKE_PRESSURE") then some 50
      else none }

/-! ### Helper lemmas -/

theorem argminUpTo_zero (d : ℕ → ℚ) : argminUpTo d 0 = 0 := rfl

theorem argminUpTo_succ (d : ℕ → ℚ) (n : ℕ) :
    argminUpTo d (n + 1) = argminStep d (argminUpTo d n) n := by
  simp [argminUpTo, List.range_succ]

/-- The first-minimum scan: for `n ≥ 1` the result of `argminUpTo d n`
is an index below `n` whose key is minimal, and every strictly earlier
index has a strictly larger key (ties go to the lower index). -/
theorem argminUpTo_spec (d : ℕ → ℚ) (n : ℕ) (hn : 0 < n) :
    argminUpTo d n < n ∧ (∀ j, j < n → d (argminUpTo d n) ≤ d j) ∧
      (∀ j, j < argminUpTo d n → d (argminUpTo d n) < d j) := by
  induction n with
  | zero => exact absurd hn (lt_irrefl 0)
  | succ m ih =>
    rcases Nat.eq_zero_or_pos m with hm | hm
    · subst hm
      rw [argminUpTo_succ, argminUpTo_zero, argminStep, if_neg (lt_irrefl (d 0))]
      refine ⟨Nat.zero_lt_one, ?_, ?_⟩
      · intro j hj
        interval_cases j
        exact le_refl _
      · intro j hj
        exact absurd hj (Nat.not_lt_zero j)
    · obtain ⟨h1, h2, h3⟩ := ih hm
      rw [argminUpTo_succ, argminStep]
      by_cases hlt : d m < d (argminUpTo d m)
      · rw [if_pos hlt]
        refine ⟨Nat.lt_succ_self m, ?_, ?_⟩
        · intro j hj
          rcases Nat.lt_succ_iff_lt_or_eq.1 hj with hj1 | hj1
          · exact le_of_lt (lt_of_lt_of_le hlt (h2 j hj1))
          · subst hj1
            exact le_refl _
        · intro j hj
          exact lt_of_lt_of_le hlt (h2 j hj)
      · rw [if_neg hlt]
        push_neg at hlt
        refine ⟨lt_trans h1 (Nat.lt_succ_self m), ?_, h3⟩
        intro j hj
        rcases Nat.lt_succ_iff_lt_or_eq.1 hj with hj1 | hj1
        · exact h2 j hj1
        · subst hj1
          exact hlt

theorem nearestIdx_lt_length (axis : List ℚ) (v : ℚ) (hne : axis ≠ []) :
    nearestIdx axis v < axis.length :=
  (argminUpTo_spec (fun i => |axis.getD i 0 - v|) axis.length
    (List.length_pos.2 hne)).1

/-- Folding the online-mean step from an arbitrary cell `(m, c)` after
one seed value `v`: the resulting mean is the total divided by the
total count. -/
theorem foldl_cellUpdate_cons (l : List ℚ) (m : ℚ) (c : ℕ) (v : ℚ) :
    List.foldl cellUpdate (cellUpdate (m, c) v) l =
      ((m * (c : ℚ) + v + l.sum) / ((c : ℚ) + 1 + (l.length : ℚ)),
        c + 1 + l.length) := by
  induction l generalizing m c v with
  | nil =>
    simp [cellUpdate]
  | cons w t ih =>
    rw [List.foldl_cons]
    have hstep : cellUpdate (cellUpdate (m, c) v) w =
        cellUpdate ((m * (c : ℚ) + v) / ((c : ℚ) + 1), c + 1) w := by
      simp [cellUpdate]
    rw [hstep, ih]
    have hc1 : ((c : ℚ) + 1) ≠ 0 := by positivity
    simp only [Prod.mk.injEq]
    constructor
    · rw [List.sum_cons, List.length_cons]
      push_cast
      field_simp
      ring
    · rw [List.length_cons]
      omega

/-- Folding the online-mean step from the fresh cell `(0, 0)` over any
value list yields exactly (arithmetic mean, length). -/
theorem foldl_cellUpdate_from_zero (l : List ℚ) :
    List.foldl cellUpdate (0, 0) l = (l.sum / (l.length : ℚ), l.length) := by
  cases l with
  | nil => simp
  | cons v t =>
    rw [List.foldl_cons, foldl_cellUpdate_cons]
    simp only [Prod.mk.injEq]
    constructor
    · rw [List.sum_cons, List.length_cons]
      push_cast
      ring_nf
    · rw [List.length_cons]
      omega

/-- Replaying any record sequence into an empty history leaves exactly
the last (up to) 100 values: everything before them is dropped. -/
theorem foldl_recordValue_eq_drop {α : Type} (l : List α) :
    List.foldl recordValue ([] : List α) l = l.drop (l.length - 100) := by
  induction l using List.reverseRecOn with
  | nil => simp
  | append_singleton t v ih =>
    rw [List.foldl_append, List.foldl_cons, List.foldl_nil, ih, recordValue]
    by_cases h : t.length < 100
    · have h0 : t.length - 100 = 0 := by omega
      have h1 : (t ++ [v]).length - 100 = 0 := by
        rw [List.length_append]
        simp only [List.length_singleton]
        omega
      rw [h0, List.drop_zero, h1, List.drop_zero]
      rw [if_neg]
      rw [List.length_append]
      simp only [List.length_singleton]
      omega
    · push_neg at h
      have hlen : (t.drop (t.length - 100)).length = 100 := by
        rw [List.length_drop]
        omega
      rw [if_pos]
      · rw [List.drop_append_of_le_length
            (by omega : 1 ≤ (t.drop (t.length - 100)).length),
          List.drop_drop]
        have harith : (t ++ [v]).length - 100 = t.length - 100 + 1 := by
          rw [List.length_append]
          simp only [List.length_singleton]
          omega
        rw [harith,
          List.drop_append_of_le_length (by omega : t.length - 100 + 1 ≤ t.length)]
      · rw [List.length_append, hlen]
        simp

theorem foldl_recordValue_length {α : Type} (l : List α) :
    (List.foldl recordValue ([] : List α) l).length = min l.length 100 := by
  rw [foldl_recordValue_eq_drop, List.length_drop]
  omega

/-- The polling fold touches only `sensor_values` and `history`. -/
theorem foldl_store_response_frame (rs : List (String × ℚ)) (s : AppState) :
    (rs.foldl store_response s).ve_data_array = s.ve_data_array ∧
      (rs.foldl store_response s).ve_counts = s.ve_counts ∧
      (rs.foldl store_response s).num_cyl = s.num_cyl ∧
      (rs.foldl store_response s).logging = s.logging ∧
      (rs.foldl store_response s).connected = s.connected := by
  induction rs generalizing s with
  | nil => exact ⟨rfl, rfl, rfl, rfl, rfl⟩
  | cons p t ih => exact ih (store_response s p)

theorem apply_responses_frame (rs : List (String × ℚ)) (s : AppState) :
    (apply_responses rs s).ve_data_array = s.ve_data_array ∧
      (apply_responses rs s).ve_counts = s.ve_counts ∧
      (apply_responses rs s).num_cyl = s.num_cyl ∧
      (apply_responses rs s).logging = s.logging ∧
      (apply_responses rs s).connected = s.connected := by
  rw [apply_responses]
  split
  · exact foldl_store_response_frame rs s
  · exact ⟨rfl, rfl, rfl, rfl, rfl⟩

theorem apply_responses_nil (s : AppState) : apply_responses [] s = s := by
  rw [apply_responses]
  split <;> rfl

/-! ### Claim theorems -/

/-- Claim C1: for rpm > 0, maf > 0, map > 0, any iat and a cylinder
count cyl > 0, the computed VE equals exactly
`(maf / (rpm * cyl / 120)) * (iat + 273.15) / map`; the value fed to
the display and grid by `update_dashboard` is exactly this `computeVe`;
and the example rpm = 2000, maf = 20, map = 50, iat = 25, cyl = 8 gives
ve = 0.89445 ≈ 0.8945. -/
theorem c1_ve_formula (rpm maf map_ iat : ℚ) (cyl : ℤ)
    (h1 : 0 < rpm) (h2 : 0 < maf) (h3 : 0 < map_) (hcyl : 0 < cyl) :
    computeVe rpm maf map_ iat cyl = maf / (rpm * (cyl : ℚ) / 120) * (iat + 273.15) / map_ ∧
    (∀ (ts : ℚ) (s : AppState), s.connected = true →
      sensor_get s ("RPM") = rpm → sensor_get s ("MAF") = maf →
      sensor_get s ("INTAKE_PRESSURE") = map_ → sensor_get s ("INTAKE_TEMP") = iat →
      s.num_cyl = cyl →
      (update_dashboard ts [] s).2.1 = some (computeVe rpm maf map_ iat cyl)) ∧
    computeVe 2000 20 50 25 8 = 17889 / 20000 ∧
    |(17889 : ℚ) / 20000 - 8945 / 10000| ≤ 1 / 10000 := by
  have hcq : (0 : ℚ) < (cyl : ℚ) := by exact_mod_cast hcyl
  have hi : 0 < rpm * (cyl : ℚ) / 120 := by positivity
  refine ⟨?_, ?_, by norm_num [computeVe], by norm_num [abs_le]⟩
  · simp only [computeVe]
    rw [if_pos hi, if_pos h3]
  · intro ts s hc e1 e2 e3 e4 e5
    simp [update_dashboard, hc, apply_responses_nil, e1, e2, e3, e4, e5, h1, h2, h3]

/-- Witness for C1 at the example input rpm = 2000, maf = 20, map = 50,
iat = 25, cyl = 8. -/
theorem c1_ve_formula_witness :
    (0 : ℚ) < 2000 ∧ (0 : ℚ) < 20 ∧ (0 : ℚ) < 50 ∧ (0 : ℤ) < 8 ∧
    (computeVe 2000 20 50 25 8 = 20 / (2000 * ((8 : ℤ) : ℚ) / 120) * (25 + 273.15) / 50 ∧
      (∀ (ts : ℚ) (s : AppState), s.connected = true →
        sensor_get s ("RPM") = 2000 → sensor_get s ("MAF") = 20 →
        sensor_get s ("INTAKE_PRESSURE") = 50 → sensor_get s ("INTAKE_TEMP") = 25 →
        s.num_cyl = 8 →
        (update_dashboard ts [] s).2.1 = some (computeVe 2000 20 50 25 8)) ∧
      computeVe 2000 20 50 25 8 = 17889 / 20000 ∧
      |(17889 : ℚ) / 20000 - 8945 / 10000| ≤ 1 / 10000) :=
  ⟨by norm_num, by norm_num, by norm_num, by norm_num,
    c1_ve_formula 2000 20 50 25 8 (by norm_num) (by norm_num) (by norm_num) (by norm_num)⟩

/-- Claim C4: replaying any finite list of VE values into a fresh cell
with the incremental formula yields exactly the arithmetic mean of the
list (exact over ℚ, hence within any floating-point tolerance), with
the stored count exactly the number of values, and the result is the
same for every submission order. -/
theorem c4_online_mean (l l2 : List ℚ) (hperm : l.Perm l2) :
    (List.foldl cellUpdate (0, 0) l).1 = l.sum / (l.length : ℚ) ∧
    (List.foldl cellUpdate (0, 0) l).2 = l.length ∧
    List.foldl cellUpdate (0, 0) l = List.foldl cellUpdate (0, 0) l2 := by
  refine ⟨by rw [foldl_cellUpdate_from_zero], by rw [foldl_cellUpdate_from_zero], ?_⟩
  rw [foldl_cellUpdate_from_zero, foldl_cellUpdate_from_zero, hperm.sum_eq,
    hperm.length_eq]

/-- Witness for C4 on the list [1, 2, 3] and its reordering [3, 1, 2]. -/
theorem c4_online_mean_witness :
    (List.foldl cellUpdate (0, 0) ([1, 2, 3] : List ℚ)).1 =
        ([1, 2, 3] : List ℚ).sum / (([1, 2, 3] : List ℚ).length : ℚ) ∧
    (List.foldl cellUpdate (0, 0) ([1, 2, 3] : List ℚ)).2 = ([1, 2, 3] : List ℚ).length ∧
    List.foldl cellUpdate (0, 0) ([1, 2, 3] : List ℚ) =
      List.foldl cellUpdate (0, 0) ([3, 1, 2] : List ℚ) :=
  c4_online_mean [1, 2, 3] [3, 1, 2] (by decide)

/-- Claim C5: on a non-empty strictly increasing axis, `nearestIdx`
returns an in-range index whose entry is at minimal absolute distance
from the value, with ties broken toward the lower index (every strictly
smaller index is strictly farther); and axis [10, 20, 30] with value 15
gives index 0. -/
theorem c5_nearest_index (axis : List ℚ) (v : ℚ) (hne : axis ≠ [])
    (_hsorted : axis.Sorted (fun a b => a < b)) :
    (nearestIdx axis v < axis.length ∧
      (∀ j, j < axis.length →
        |axis.getD (nearestIdx axis v) 0 - v| ≤ |axis.getD j 0 - v|) ∧
      (∀ j, j < nearestIdx axis v →
        |axis.getD (nearestIdx axis v) 0 - v| < |axis.getD j 0 - v|)) ∧
    nearestIdx [10, 20, 30] 15 = 0 := by
  refine ⟨argminUpTo_spec (fun i => |axis.getD i 0 - v|) axis.length
    (List.length_pos.2 hne), ?_⟩
  norm_num [nearestIdx, argminUpTo, argminStep, List.range_succ]

/-- Witness for C5 at the tie-break example axis [10, 20, 30], value 15. -/
theorem c5_nearest_index_witness :
    (([10, 20, 30] : List ℚ) ≠ [] ∧
      ([10, 20, 30] : List ℚ).Sorted (fun a b => a < b)) ∧
    ((nearestIdx [10, 20, 30] 15 < ([10, 20, 30] : List ℚ).length ∧
      (∀ j, j < ([10, 20, 30] : List ℚ).length →
        |([10, 20, 30] : List ℚ).getD (nearestIdx [10, 20, 30] 15) 0 - 15| ≤
          |([10, 20, 30] : List ℚ).getD j 0 - 15|) ∧
      (∀ j, j < nearestIdx [10, 20, 30] 15 →
        |([10, 20, 30] : List ℚ).getD (nearestIdx [10, 20, 30] 15) 0 - 15| <
          |([10, 20, 30] : List ℚ).getD j 0 - 15|)) ∧
    nearestIdx [10, 20, 30] 15 = 0) :=
  ⟨⟨by decide, by decide⟩,
    c5_nearest_index [10, 20, 30] 15 (by decide) (by decide)⟩

/-- Claim C6: recording 100 + k values into an initially empty channel
history leaves exactly 100 entries — the most recent 100 in order
(the list with its first k entries dropped) — and, when the recorded
values are pairwise distinct, none of the k oldest values remains. -/
theorem c6_history_cap {α : Type} (l : List α) (k : ℕ)
    (hlen : l.length = 100 + k) :
    (List.foldl recordValue ([] : List α) l).length = 100 ∧
    List.foldl recordValue ([] : List α) l = l.drop k ∧
    (l.Nodup → ∀ x ∈ l.take k, x ∉ List.foldl recordValue ([] : List α) l) := by
  have hd : List.foldl recordValue ([] : List α) l = l.drop k := by
    rw [foldl_recordValue_eq_drop, hlen]
    congr 1
    omega
  refine ⟨?_, hd, ?_⟩
  · rw [foldl_recordValue_length]
    omega
  · intro hnd x hx
    rw [hd]
    have hsplit : (l.take k ++ l.drop k).Nodup := by
      rw [List.take_append_drop]
      exact hnd
    exact (List.nodup_append.1 hsplit).2.2 hx

/-- Witness for C6: recording the 101 distinct values 0, ..., 100 keeps
exactly the last 100 and drops the oldest value. -/
theorem c6_history_cap_witness :
    (List.range 101).length = 100 + 1 ∧
    ((List.foldl recordValue ([] : List ℕ) (List.range 101)).length = 100 ∧
      List.foldl recordValue ([] : List ℕ) (List.range 101) = (List.range 101).drop 1 ∧
      ((List.range 101).Nodup → ∀ x ∈ (List.range 101).take 1,
        x ∉ List.foldl recordValue ([] : List ℕ) (List.range 101))) :=
  ⟨by simp, c6_history_cap (List.range 101) 1 (by simp)⟩

/-- Claim C7: `disconnect_obd` from any state yields the disconnected
state with all per-channel histories and latest sensor values emptied
and the supported-channel list cleared, while both VE grid matrices are
left exactly as they were. -/
theorem c7_disconnect (s : AppState) :
    (disconnect_obd s).connected = false ∧
    (∀ ch, (disconnect_obd s).history ch = []) ∧
    (∀ ch, (disconnect_obd s).sensor_values ch = none) ∧
    (disconnect_obd s).gear_value = none ∧
    (disconnect_obd s).supported_commands = [] ∧
    (disconnect_obd s).ve_data_array = s.ve_data_array ∧
    (disconnect_obd s).ve_counts = s.ve_counts :=
  ⟨rfl, fun _ => rfl, fun _ => rfl, rfl, rfl, rfl, rfl⟩

/-- Claim C10: the MAP axis has 18 edges and the RPM axis 20, and for
any guard-passing (rpm, map) pair the nearest-bin indices used by the
grid update of `update_dashboard` are strictly below 18 and 20, so the
access stays inside the |MAP_BINS| × |RPM_BINS| matrices. -/
theorem c10_index_bounds (rpm map_ : ℚ) (_h1 : 0 < rpm) (_h2 : 0 < map_) :
    MAP_BINS.length = 18 ∧ RPM_BINS.length = 20 ∧
    nearestIdx MAP_BINS map_ < 18 ∧ nearestIdx RPM_BINS rpm < 20 := by
  have hm : MAP_BINS.length = 18 := by rw [MAP_BINS, List.length_map, List.length_range']
  have hr : RPM_BINS.length = 20 := by rw [RPM_BINS, List.length_map, List.length_range']
  refine ⟨hm, hr, ?_, ?_⟩
  · exact hm ▸ nearestIdx_lt_length MAP_BINS map_
      (List.length_pos.1 (by rw [hm]; omega))
  · exact hr ▸ nearestIdx_lt_length RPM_BINS rpm
      (List.length_pos.1 (by rw [hr]; omega))

/-- Witness for C10 at rpm = 2000, map = 50. -/
theorem c10_index_bounds_witness :
    (0 : ℚ) < 2000 ∧ (0 : ℚ) < 50 ∧
    (MAP_BINS.length = 18 ∧ RPM_BINS.length = 20 ∧
      nearestIdx MAP_BINS 50 < 18 ∧ nearestIdx RPM_BINS 2000 < 20) :=
  ⟨by norm_num, by norm_num, c10_index_bounds 2000 50 (by norm_num) (by norm_num)⟩

/-- Claim C2: on any tick whose (post-poll) rpm, maf or map reads 0, no
VE value is emitted, both grid matrices are left unchanged, and any CSV
row written has exactly the 18 fixed columns. -/
theorem c2_guard_skip (ts : ℚ) (rs : List (String × ℚ)) (s : AppState)
    (h : sensor_get (apply_responses rs s) ("RPM") = 0 ∨
      sensor_get (apply_responses rs s) ("MAF") = 0 ∨
      sensor_get (apply_responses rs s) ("INTAKE_PRESSURE") = 0) :
    (update_dashboard ts rs s).2.1 = none ∧
    (update_dashboard ts rs s).1.ve_data_array = s.ve_data_array ∧
    (update_dashboard ts rs s).1.ve_counts = s.ve_counts ∧
    ∀ row, (update_dashboard ts rs s).2.2 = some row → row.length = 18 := by
  have hg : ¬(0 < sensor_get (apply_responses rs s) ("RPM") ∧
      0 < sensor_get (apply_responses rs s) ("MAF") ∧
      0 < sensor_get (apply_responses rs s) ("INTAKE_PRESSURE")) := by
    rcases h with h | h | h <;> rw [h] <;> simp
  obtain ⟨hveq, hcnt, -, -, -⟩ := apply_responses_frame rs s
  by_cases hc : s.connected = true
  · refine ⟨?_, ?_, ?_, ?_⟩
    · simp [update_dashboard, hc, hg]
    · simp [update_dashboard, hc, hg, hveq]
    · simp [update_dashboard, hc, hg, hcnt]
    · intro row hrow
      simp [update_dashboard, hc, hg] at hrow
      rw [logRowOf] at hrow
      by_cases hl : (apply_responses rs s).logging = true
      · rw [if_pos hl] at hrow
        injection hrow with hrow2
        rw [← hrow2]
        rfl
      · rw [if_neg hl] at hrow
        exact absurd hrow (by simp)
  · have hcf : s.connected = false := by
      revert hc
      cases s.connected <;> simp
    refine ⟨?_, ?_, ?_, ?_⟩
    · simp [update_dashboard, hcf]
    · simp [update_dashboard, hcf]
    · simp [update_dashboard, hcf]
    · intro row hrow
      simp [update_dashboard, hcf] at hrow

/-- Witness for C2 on a disconnected-empty state whose rpm reads 0. -/
theorem c2_guard_skip_witness :
    (sensor_get (apply_responses [] initState) ("RPM") = 0 ∨
      sensor_get (apply_responses [] initState) ("MAF") = 0 ∨
      sensor_get (apply_responses [] initState) ("INTAKE_PRESSURE") = 0) ∧
    ((update_dashboard 0 [] initState).2.1 = none ∧
      (update_dashboard 0 [] initState).1.ve_data_array = initState.ve_data_array ∧
      (update_dashboard 0 [] initState).1.ve_counts = initState.ve_counts ∧
      ∀ row, (update_dashboard 0 [] initState).2.2 = some row → row.length = 18) :=
  ⟨Or.inl (by rw [apply_responses_nil]; rfl),
    c2_guard_skip 0 [] initState (Or.inl (by rw [apply_responses_nil]; rfl))⟩

/-- Counterexample to claim C3 as stated: in a connected state whose
RPM/MAF/MAP are 2000/20/50 but whose INTAKE_TEMP channel is absent
(reads `None`), the tick still emits a VE value — computed with the
default iat = 0, namely 0.15 * 273.15 / 50 = 16389/20000 — and still
increments the grid count at the target cell, though the claim says an
absent iat must be rejected with no VE and no grid update. -/
theorem c3_counterexample :
    iatAbsentState.sensor_values ("INTAKE_TEMP") = none ∧
    (update_dashboard 0 [] iatAbsentState).2.1 = some (16389 / 20000) ∧
    (update_dashboard 0 [] iatAbsentState).1.ve_counts
      (nearestIdx MAP_BINS 50) (nearestIdx RPM_BINS 2000) = 1 ∧
    iatAbsentState.ve_counts (nearestIdx MAP_BINS 50) (nearestIdx RPM_BINS 2000) = 0 := by
  refine ⟨rfl, ?_, ?_, rfl⟩
  · norm_num +decide [update_dashboard, apply_responses, sensor_get, computeVe,
      iatAbsentState, initState, NUM_CYLINDERS]
  · norm_num +decide [update_dashboard, apply_responses, sensor_get, computeVe,
      cellUpdate, iatAbsentState, initState, NUM_CYLINDERS]

/-- Claim C3 as amended: VE computation is attempted exactly when
rpm > 0, maf > 0 and map > 0 on the post-poll values; the `iat is not
None` test never rejects, because an absent INTAKE_TEMP channel reads
as the default 0 — so any real iat (negative included) is accepted, and
an absent iat is treated as 0 °C rather than rejected. -/
theorem c3_guard_policy (ts : ℚ) (rs : List (String × ℚ)) (s : AppState)
    (hc : s.connected = true) :
    (((update_dashboard ts rs s).2.1).isSome ↔
      (0 < sensor_get (apply_responses rs s) ("RPM") ∧
        0 < sensor_get (apply_responses rs s) ("MAF") ∧
        0 < sensor_get (apply_responses rs s) ("INTAKE_PRESSURE"))) ∧
    ((apply_responses rs s).sensor_values ("INTAKE_TEMP") = none →
      sensor_get (apply_responses rs s) ("INTAKE_TEMP") = 0) := by
  constructor
  · by_cases hg : (0 < sensor_get (apply_responses rs s) ("RPM") ∧
        0 < sensor_get (apply_responses rs s) ("MAF") ∧
        0 < sensor_get (apply_responses rs s) ("INTAKE_PRESSURE"))
    · simp [update_dashboard, hc, hg]
    · simp [update_dashboard, hc, hg]
  · intro hnone
    rw [sensor_get, hnone]
    rfl

/-- Witness for C3 (amended) on the connected state with an absent
INTAKE_TEMP and positive RPM/MAF/MAP. -/
theorem c3_guard_policy_witness :
    iatAbsentState.connected = true ∧
    ((((update_dashboard 0 [] iatAbsentState).2.1).isSome ↔
      (0 < sensor_get (apply_responses [] iatAbsentState) ("RPM") ∧
        0 < sensor_get (apply_responses [] iatAbsentState) ("MAF") ∧
        0 < sensor_get (apply_responses [] iatAbsentState) ("INTAKE_PRESSURE"))) ∧
    ((apply_responses [] iatAbsentState).sensor_values ("INTAKE_TEMP") = none →
      sensor_get (apply_responses [] iatAbsentState) ("INTAKE_TEMP") = 0)) :=
  ⟨rfl, c3_guard_policy 0 [] iatAbsentState rfl⟩

/-- Claim C8: in any state that is not Connected, a dashboard tick is a
complete no-op (no sample recorded, no VE computed, no grid update, no
row written), and the remaining reachable event handlers — disconnect,
connect, timed reconnect — never touch the grid matrices and never
record a sample (they only clear or preserve channel histories).  The
source's `update_sensor` callback is not wired to anything
(`async_connection` is never assigned a watcher), so these handlers are
the complete set of state mutators. -/
theorem c8_connected_gate (s : AppState) (h : s.connected = false) :
    (∀ ts rs, update_dashboard ts rs s = (s, none, none)) ∧
    ((disconnect_obd s).ve_data_array = s.ve_data_array ∧
      (disconnect_obd s).ve_counts = s.ve_counts ∧
      ∀ ch, (disconnect_obd s).history ch = []) ∧
    (∀ port res,
      (connect_obd port res s).ve_data_array = s.ve_data_array ∧
      (connect_obd port res s).ve_counts = s.ve_counts ∧
      ∀ ch, (connect_obd port res s).history ch = []) ∧
    (∀ res,
      (reconnect_obd res s).ve_data_array = s.ve_data_array ∧
      (reconnect_obd res s).ve_counts = s.ve_counts ∧
      ∀ ch, (reconnect_obd res s).history ch = [] ∨
        (reconnect_obd res s).history ch = s.history ch) := by
  refine ⟨?_, ⟨rfl, rfl, fun _ => rfl⟩, ?_, ?_⟩
  · intro ts rs
    simp [update_dashboard, h]
  · intro port res
    cases res <;> exact ⟨rfl, rfl, fun _ => rfl⟩
  · intro res
    cases hlp : s.last_port with
    | none =>
      simp [reconnect_obd, hlp]
    | some p =>
      simp only [reconnect_obd, hlp]
      rw [if_neg (by rw [h]; exact Bool.false_ne_true)]
      cases res <;> exact ⟨rfl, rfl, fun ch => Or.inl rfl⟩

/-- Witness for C8 at the initial (disconnected) state. -/
theorem c8_connected_gate_witness :
    (∀ ts rs, update_dashboard ts rs initState = (initState, none, none)) ∧
    ((disconnect_obd initState).ve_data_array = initState.ve_data_array ∧
      (disconnect_obd initState).ve_counts = initState.ve_counts ∧
      ∀ ch, (disconnect_obd initState).history ch = []) ∧
    (∀ port res,
      (connect_obd port res initState).ve_data_array = initState.ve_data_array ∧
      (connect_obd port res initState).ve_counts = initState.ve_counts ∧
      ∀ ch, (connect_obd port res initState).history ch = []) ∧
    (∀ res,
      (reconnect_obd res initState).ve_data_array = initState.ve_data_array ∧
      (reconnect_obd res initState).ve_counts = initState.ve_counts ∧
      ∀ ch, (reconnect_obd res initState).history ch = [] ∨
        (reconnect_obd res initState).history ch = initState.history ch) :=
  c8_connected_gate initState rfl

/-- Counterexample to claim C9 as stated: 0 is not an integer greater
than 0, yet when `int()` returns it — as it does for the text "0" —
`update_num_cyl` accepts it: the prior configuration 8 does not remain
in effect, the cylinder count becomes 0 (and -4, returned by `int()`
for "-4", is likewise accepted). -/
theorem c9_counterexample :
    initState.num_cyl = 8 ∧
    (update_num_cyl (some 0) initState).num_cyl = 0 ∧
    ¬(0 < (update_num_cyl (some 0) initState).num_cyl) ∧
    (update_num_cyl (some (-4)) initState).num_cyl = -4 :=
  ⟨rfl, rfl, by decide, rfl⟩

/-- Claim C9 as amended: only a `ValueError` from `int()` is rejected,
leaving the whole prior state — the cylinder count included — in
effect; whenever `int()` returns an integer n, zero and negative
included, n is accepted and replaces the prior count. -/
theorem c9_cyl_config (parsed : Option ℤ) (s : AppState) :
    (parsed = none → update_num_cyl parsed s = s) ∧
    (∀ n : ℤ, parsed = some n → (update_num_cyl parsed s).num_cyl = n) := by
  constructor
  · intro h
    subst h
    rfl
  · intro n h
    subst h
    rfl

/-- Witness for C9 (amended): a `ValueError` (e.g. `int("abc")`) leaves
the state untouched; a parse to 12 (e.g. `int("12")`) installs 12. -/
theorem c9_cyl_config_witness :
    update_num_cyl none initState = initState ∧
    (update_num_cyl (some 12) initState).num_cyl = 12 :=
  ⟨(c9_cyl_config none initState).1 rfl,
    (c9_cyl_config (some 12) initState).2 12 rfl⟩

end MyTool
